import Mathlib

/-!
# DriveIQ driving-behavior inference pipeline: a shallow embedding

This file embeds, in Lean 4, the core inference pipeline of the DriveIQ
repository and proves properties of it.  The embedded code comes from:

* `src/ml-model/src/preprocessing_inference.py`
* `src/ml-model/src/knn_alerts_inference.py`
* `src/backend/app/ml/feature_builder.py`
* `src/backend/app/ml/predictor.py`
* `src/ml-model/notebooks/phase3_OUTDATED.py` (the `normalize_severity` helper)

Machine reals are modelled by `ℚ` (exact arithmetic of the formulas involved;
we idealise IEEE floats by exact rationals).  Calls into external libraries
(pandas `merge_asof`, sklearn's `KNNImputer`, scaler `.transform`, keras
`model.predict`, sklearn `kneighbors`) and values loaded from on-disk model
artifacts (schemas, thresholds) are not repository code: they are modelled as
explicit function parameters ("kernels"/"artifacts"), so every theorem
quantifies over their behaviour.  All repository-authored control flow and
arithmetic is embedded concretely.
-/

namespace DriveIQ

/-! ## Python semantics helpers -/

/-- Python `int(x)` on an exact rational: truncation toward zero. -/
def pyInt (q : ℚ) : ℤ := q.num.tdiv q.den

/-- Round to the nearest integer, ties to even — the rounding used by
Python's built-in `round`. -/
def roundHalfEven (q : ℚ) : ℤ :=
  if q - ⌊q⌋ < 1/2 then ⌊q⌋
  else if 1/2 < q - ⌊q⌋ then ⌊q⌋ + 1
  else if Even ⌊q⌋ then ⌊q⌋ else ⌊q⌋ + 1

/-- Python `round(x, 2)`: round to two decimal places, ties to even. -/
def pyRound2 (q : ℚ) : ℚ := (roundHalfEven (q * 100) : ℚ) / 100

/-- Number of elements of Python `range(0, stop, step)` for `step > 0`. -/
def pyRangeLen (stop : ℤ) (step : ℕ) : ℕ :=
  if stop ≤ 0 then 0 else (stop - 1).toNat / step + 1

/-- Python `range(0, stop, step)` for `step > 0`, as the list
`[0, step, 2*step, ...]` of all multiples of `step` below `stop`. -/
def pyRange (stop : ℤ) (step : ℕ) : List ℤ :=
  (List.range (pyRangeLen stop step)).map (fun (i : ℕ) => ((i : ℤ) * (step : ℤ)))

/-- Python `s.lower()` (road-type strings are ASCII; `Char.toLower` agrees
with Python's lowercasing there). -/
def pyLower (s : String) : String := String.mk (s.data.map Char.toLower)

/-- Python `s.strip().lower()` as used on road-type strings: drop leading and
trailing whitespace, then lowercase. -/
def pyStripLower (s : String) : String :=
  String.mk (((s.data.dropWhile Char.isWhitespace).reverse.dropWhile
    Char.isWhitespace).reverse.map Char.toLower)

/-- pandas `Series.max()` on a numeric column; the empty-series case (pandas
yields NaN there) is given the junk value 0 — all uses below are guarded by
non-emptiness where it matters. -/
def seriesMax (l : List ℚ) : ℚ := l.maximum.getD 0

/-- numpy `reshape` back from a flattened `(n*k, f)` array to `(n, k, f)`:
regroup a list of rows into consecutive chunks of `k` rows (fuel-driven). -/
def chunkAux (k : ℕ) : ℕ → List (List ℚ) → List (List (List ℚ))
  | 0, _ => []
  | _ + 1, [] => []
  | n + 1, l => l.take k :: chunkAux k n (l.drop k)

/-- Regroup a flat list of rows into chunks of `k` rows. -/
def chunkList (k : ℕ) (l : List (List ℚ)) : List (List (List ℚ)) :=
  chunkAux k l.length l

/-- numpy `argmax` over a 1-D array: the index of the first occurrence of the
maximum value (0 on an empty array, which numpy rejects; never hit below). -/
def npArgmax (l : List ℚ) : ℕ := l.findIdx (fun x => x = l.maximum.getD 0)

/-- numpy `a.mean(axis=0)` on an `(n, k)` array given as a list of `n` rows of
width `k`: the componentwise mean column vector. -/
def npMeanAxis0 (m : List (List ℚ)) : List ℚ :=
  (List.range m.headI.length).map (fun j => (m.map (fun r => r.getD j 0)).sum / m.length)

/-- Python `max(scores, key=scores.get)` over an association list in insertion
order: the first entry attaining the maximal value. -/
def pyMaxByVal (l : List (String × ℚ)) : String × ℚ :=
  l.foldl (fun acc p => if acc.2 < p.2 then p else acc) l.headI

/-- The distinct values of a list in order of first appearance. -/
def distinctFirst (xs : List String) : List String :=
  xs.foldl (fun acc x => if x ∈ acc then acc else acc ++ [x]) []

/-- pandas `Series.value_counts().idxmax()`: the value with the largest
occurrence count (first-seen order breaks ties). -/
def valueCountsIdxmax (xs : List String) : String :=
  (pyMaxByVal ((distinctFirst xs).map (fun v => (v, (xs.count v : ℚ))))).1

/-! ## Basic lemmas about the helpers -/

theorem pyInt_eq_floor {q : ℚ} (h : 0 ≤ q) : pyInt q = ⌊q⌋ := by
  have h0 : 0 ≤ q.num := Rat.num_nonneg.mpr h
  obtain ⟨m, hm⟩ : ∃ m : ℕ, q.num = (m : ℤ) := ⟨q.num.toNat, (Int.toNat_of_nonneg h0).symm⟩
  rw [Rat.floor_def]
  unfold pyInt
  rw [hm]
  rfl

theorem rhe_of_lt_half {q : ℚ} (h : q - ⌊q⌋ < 1/2) : roundHalfEven q = ⌊q⌋ := by
  unfold roundHalfEven
  rw [if_pos h]

theorem rhe_of_gt_half {q : ℚ} (h : 1/2 < q - ⌊q⌋) : roundHalfEven q = ⌊q⌋ + 1 := by
  unfold roundHalfEven
  rw [if_neg (by linarith), if_pos h]

theorem floor_le_roundHalfEven (q : ℚ) : ⌊q⌋ ≤ roundHalfEven q := by
  unfold roundHalfEven
  split
  · omega
  · split
    · omega
    · split <;> omega

theorem roundHalfEven_le_ceil (q : ℚ) : roundHalfEven q ≤ ⌈q⌉ := by
  have hfc := Int.floor_le_ceil q
  unfold roundHalfEven
  split
  · exact hfc
  · rename_i h1
    push_neg at h1
    have hfq : (⌊q⌋ : ℚ) < q := by linarith
    have hlt : ⌊q⌋ < ⌈q⌉ := Int.lt_ceil.mpr hfq
    split
    · omega
    · split <;> omega

theorem roundHalfEven_monotone {x y : ℚ} (h : x ≤ y) :
    roundHalfEven x ≤ roundHalfEven y := by
  rcases lt_or_eq_of_le (Int.floor_le_floor h) with hf | hf
  · have h1 := roundHalfEven_le_ceil x
    have h2 := Int.ceil_le_floor_add_one x
    have h3 := floor_le_roundHalfEven y
    omega
  · by_cases hxh : x - ⌊x⌋ < 1/2
    · rw [rhe_of_lt_half hxh, hf]
      exact floor_le_roundHalfEven y
    · push_neg at hxh
      by_cases hyh : 1/2 < y - ⌊y⌋
      · rw [rhe_of_gt_half hyh]
        have h1 := roundHalfEven_le_ceil x
        have h2 := Int.ceil_le_floor_add_one x
        omega
      · push_neg at hyh
        have hcast : (⌊x⌋ : ℚ) = (⌊y⌋ : ℚ) := by exact_mod_cast hf
        have hxy : x = y := by linarith
        rw [hxy]

theorem roundHalfEven_zero : roundHalfEven 0 = 0 := by
  have : (0 : ℚ) - ⌊(0 : ℚ)⌋ < 1/2 := by norm_num
  rw [rhe_of_lt_half this]
  norm_num

theorem pyRound2_zero : pyRound2 0 = 0 := by
  unfold pyRound2
  norm_num [roundHalfEven_zero]

theorem pyRound2_nonneg {q : ℚ} (h : 0 ≤ q) : 0 ≤ pyRound2 q := by
  unfold pyRound2
  have h2 : (0 : ℤ) ≤ ⌊q * 100⌋ := Int.floor_nonneg.mpr (by positivity)
  have h1 := floor_le_roundHalfEven (q * 100)
  have h3 : (0 : ℚ) ≤ (roundHalfEven (q * 100) : ℚ) := by exact_mod_cast by omega
  positivity

theorem pyRound2_le_hundred {q : ℚ} (h : q ≤ 100) : pyRound2 q ≤ 100 := by
  unfold pyRound2
  have hc := roundHalfEven_le_ceil (q * 100)
  have h2 : ⌈q * 100⌉ ≤ 10000 := Int.ceil_le.mpr (by push_cast; linarith)
  have h3 : (roundHalfEven (q * 100) : ℚ) ≤ 10000 := by exact_mod_cast by omega
  linarith

theorem pyRound2_monotone {x y : ℚ} (h : x ≤ y) : pyRound2 x ≤ pyRound2 y := by
  unfold pyRound2
  have h1 : roundHalfEven (x * 100) ≤ roundHalfEven (y * 100) :=
    roundHalfEven_monotone (by linarith)
  have h2 : (roundHalfEven (x * 100) : ℚ) ≤ (roundHalfEven (y * 100) : ℚ) := by
    exact_mod_cast h1
  linarith

theorem pyRangeLen_of_nonpos {stop : ℤ} (h : stop ≤ 0) (step : ℕ) :
    pyRangeLen stop step = 0 := by
  unfold pyRangeLen
  simp [h]

theorem pyRangeLen_of_pos {stop : ℤ} (h : 0 < stop) (step : ℕ) :
    pyRangeLen stop step = (stop - 1).toNat / step + 1 := by
  unfold pyRangeLen
  rw [if_neg (by omega)]

/-! ## Sensor input and the 10 Hz timebase
(`src/ml-model/src/preprocessing_inference.py`) -/

/-- The raw per-session sensor bundle (the parsed `sensor_json`): five named
streams, each a sequence of fixed-width numeric tuples whose first entry is
the timestamp, plus a road-type tag and a session identifier. -/
structure SensorJson where
  session_id : String
  road_type : String
  gps : List (List ℚ)
  accelerometer : List (List ℚ)
  lane : List (List ℚ)
  vehicle : List (List ℚ)
  osm : List (List ℚ)

/-- The `timestamp` column of a raw stream (column 0 of every stream type). -/
def tsCol (rows : List (List ℚ)) : List ℚ := rows.map (fun r => r.headI)

/-- `build_10hz_timebase(max_timestamp_sec)`: the `timestamp` column
`[t/10 for t in range(0, int(max_timestamp_sec * 10) + 1)]` of the 10 Hz
timeline DataFrame. -/
def build_10hz_timebase (max_timestamp_sec : ℚ) : List ℚ :=
  (pyRange (pyInt (max_timestamp_sec * 10) + 1) 1).map
    (fun (t : ℤ) => (t : ℚ) / 10)

/-- The timebase `preprocess_session_from_json` builds: `max_time =
gps["timestamp"].max()` — the GPS stream only — fed to `build_10hz_timebase`. -/
def session_timebase (s : SensorJson) : List ℚ :=
  build_10hz_timebase (seriesMax (tsCol s.gps))

/-- Modelled from the spec (§3 UnifiedTimeline, §4.1 Stream Aligner): "the
maximum observed timestamp across all streams".  This definition follows the
spec's words, not the code; it exists only so claims about "max over all
streams" can be stated and compared against the code's `session_timebase`. -/
def specMaxTimestampAllStreams (s : SensorJson) : ℚ :=
  seriesMax (tsCol s.gps ++ tsCol s.accelerometer ++ tsCol s.lane ++
    tsCol s.vehicle ++ tsCol s.osm)

/-- The library kernels `preprocess_session_from_json` calls.  These are
external function calls (pandas, sklearn) and artifact files, not repository
code, so they are parameters of the embedding:
* `mergeAsofBackward r tb` — `r.sort_values("timestamp")` then
  `pd.merge_asof(tb, r, on="timestamp", direction="backward")`, returning the
  stream's value columns aligned to the timebase (one row per tick);
* `mergeAsofNearest` — the same with `direction="nearest"`;
* `knnImpute` — the `KNNImputer(n_neighbors=5, weights="distance")`
  fit-transform block (column exclusion and re-insertion included);
* `schemaReorder` — `data_imputed[feature_order]` for the `feature_order`
  loaded from the on-disk `feature_schema.json` artifact. -/
structure PreprocKernels where
  mergeAsofBackward : List (List ℚ) → List ℚ → List (List ℚ)
  mergeAsofNearest : List (List ℚ) → List ℚ → List (List ℚ)
  knnImpute : List (List ℚ) → List (List ℚ)
  schemaReorder : List (List ℚ) → List (List ℚ)

/-- The `data.merge(df, on=["timestamp","t_10hz"], how="left")` loop: one row
per timeline tick, `[t_10hz, timestamp]` first, then the five streams' aligned
value columns in merge order (gps, accelerometer, lane, vehicle, osm).
Column layout of the result: 0 `t_10hz`, 1 `timestamp`, 2–12 gps
(so 2 = `speed_kmh`), 13–22 accelerometer, 23–26 lane, 27–30 vehicle,
31–39 osm (so 31 = `max_speed`). -/
def mergeStreams (tb : List ℚ) (g a l v o : List (List ℚ)) : List (List ℚ) :=
  (List.range tb.length).map (fun (i : ℕ) =>
    [(i : ℚ), tb.getD i 0] ++ g.getD i [] ++ a.getD i [] ++ l.getD i [] ++
      v.getD i [] ++ o.getD i [])

/-- `data["speed_ratio"] = np.where(data["max_speed"] > 0,
data["speed_kmh"] / data["max_speed"], 0)` for one merged row
(`speed_kmh` at index 2, `max_speed` at index 31, see `mergeStreams`). -/
def speedRatioOf (r : List ℚ) : ℚ :=
  if 0 < r.getD 31 0 then r.getD 2 0 / r.getD 31 0 else 0

/-- `preprocess_session_from_json(sensor_json)`: build the 10 Hz timebase from
the GPS stream's maximum timestamp, as-of-join each stream onto it (GPS and
OSM backward, accelerometer/lane/vehicle nearest), merge, append the derived
`speed_ratio` feature, impute, and reorder to the trained feature schema.
Note the road type is not an input: preprocessing never sees it. -/
def preprocess_session_from_json (K : PreprocKernels) (s : SensorJson) :
    List (List ℚ) :=
  let tb := session_timebase s
  let gps10 := K.mergeAsofBackward s.gps tb
  let acc10 := K.mergeAsofNearest s.accelerometer tb
  let lane10 := K.mergeAsofNearest s.lane tb
  let veh10 := K.mergeAsofNearest s.vehicle tb
  let osm10 := K.mergeAsofBackward s.osm tb
  let data := mergeStreams tb gps10 acc10 lane10 veh10 osm10
  let data2 := data.map (fun r => r ++ [speedRatioOf r])
  K.schemaReorder (K.knnImpute data2)

/-! ## Windowing
(`create_windows_inference` in `src/ml-model/src/preprocessing_inference.py`
and `make_windows` in `src/backend/app/ml/feature_builder.py`) -/

/-- `create_windows_inference(df, window_size, stride)`: windows
`data[start:start+window_size]` for `start in range(0, n_rows - window_size
+ 1, stride)` (Python integer arithmetic: the stop bound may be negative,
hence the computation over `ℤ`). -/
def create_windows_inference (df : List (List ℚ)) (window_size stride : ℕ) :
    List (List (List ℚ)) :=
  (pyRange ((df.length : ℤ) - window_size + 1) stride).map
    (fun start => (df.drop start.toNat).take window_size)

/-- A pandas DataFrame at the granularity the backend's `make_windows` needs:
a set of column names and rows addressed by name. -/
structure DataFrame where
  columns : List String
  rows : List (String → ℚ)

/-- The stride selection at the top of `make_windows`:
`road = (road_type or "").strip().lower()`; motorway-family strides 240,
anything else 260. -/
def strideFor (road_type : String) : ℕ :=
  if pyStripLower road_type ∈ ["motor", "motorway", "highway"] then 240 else 260

/-- The `for c in feature_cols: if c not in df.columns: df[c] = 0.0` loop
followed by `df[feature_cols].astype("float32").to_numpy()`: project the frame
onto `feature_cols`, synthesizing absent columns as zero. -/
def dfSelect (df : DataFrame) (cols : List String) : List (List ℚ) :=
  df.rows.map (fun r => cols.map (fun c => if c ∈ df.columns then r c else 0))

/-- `make_windows(df, feature_cols, window_size, road_type)` from
`feature_builder.py`: stride from the road type, then the same slicing loop
as `create_windows_inference`, also returning the window start indices. -/
def make_windows (df : DataFrame) (feature_cols : List String)
    (window_size : ℕ) (road_type : String) :
    List (List (List ℚ)) × List ℕ :=
  let stride := strideFor road_type
  let x := dfSelect df feature_cols
  let idxs := pyRange ((x.length : ℤ) - window_size + 1) stride
  (idxs.map (fun start => (x.drop start.toNat).take window_size),
   idxs.map Int.toNat)

/-! ## Windowing lemmas -/

theorem create_windows_inference_eq_map (df : List (List ℚ)) (w stride : ℕ) :
    create_windows_inference df w stride =
      (List.range (pyRangeLen ((df.length : ℤ) - w + 1) stride)).map
        (fun i => (df.drop (i * stride)).take w) := by
  unfold create_windows_inference pyRange
  rw [List.map_map]
  apply List.map_congr_left
  intro i _
  have h : ((i : ℤ) * (stride : ℤ)).toNat = i * stride := by
    rw [← Nat.cast_mul, Int.toNat_natCast]
  simp only [Function.comp_apply, h]

theorem create_windows_inference_length (df : List (List ℚ)) (w stride : ℕ) :
    (create_windows_inference df w stride).length =
      pyRangeLen ((df.length : ℤ) - w + 1) stride := by
  rw [create_windows_inference_eq_map]
  simp

theorem pyRangeLen_window_count {n w : ℕ} (stride : ℕ) (h : w ≤ n) :
    pyRangeLen ((n : ℤ) - w + 1) stride = (n - w) / stride + 1 := by
  rw [pyRangeLen_of_pos (by omega)]
  have h2 : ((n : ℤ) - w + 1 - 1).toNat = n - w := by omega
  rw [h2]

theorem pyRangeLen_window_zero {n w : ℕ} (stride : ℕ) (h : n < w) :
    pyRangeLen ((n : ℤ) - w + 1) stride = 0 :=
  pyRangeLen_of_nonpos (by omega) stride

theorem window_offset_le {n w stride i : ℕ} (hs : 0 < stride) (hw : w ≤ n)
    (hi : i < (n - w) / stride + 1) : i * stride + w ≤ n := by
  have h1 : i ≤ (n - w) / stride := by omega
  have h2 : i * stride ≤ n - w := (Nat.le_div_iff_mul_le hs).mp h1
  omega

theorem window_offset_iff {n w stride : ℕ} (hs : 0 < stride) (hw : w ≤ n)
    (i : ℕ) : i < (n - w) / stride + 1 ↔ i * stride + w ≤ n := by
  constructor
  · exact window_offset_le hs hw
  · intro h
    have h1 : i * stride ≤ n - w := by omega
    have h2 : i ≤ (n - w) / stride := (Nat.le_div_iff_mul_le hs).mpr h1
    omega

theorem window_slice_length {α : Type} {df : List α} {w s : ℕ}
    (h : s + w ≤ df.length) : ((df.drop s).take w).length = w := by
  simp only [List.length_take, List.length_drop]
  omega

theorem make_windows_eq (df : DataFrame) (cols : List String) (w : ℕ)
    (rt : String) :
    (make_windows df cols w rt).1 =
      create_windows_inference (dfSelect df cols) w (strideFor rt) := rfl

theorem make_windows_idxs_eq (df : DataFrame) (cols : List String) (w : ℕ)
    (rt : String) :
    (make_windows df cols w rt).2 =
      (List.range (pyRangeLen (((dfSelect df cols).length : ℤ) - w + 1)
        (strideFor rt))).map (fun i => i * strideFor rt) := by
  show (pyRange (((dfSelect df cols).length : ℤ) - w + 1)
      (strideFor rt)).map Int.toNat = _
  unfold pyRange
  rw [List.map_map]
  apply List.map_congr_left
  intro i _
  simp only [Function.comp_apply]
  rw [← Nat.cast_mul, Int.toNat_natCast]

/-! ## Timebase lemmas -/

theorem build_10hz_timebase_length {m : ℚ} (h : 0 ≤ m) :
    ((build_10hz_timebase m).length : ℤ) = ⌊m * 10⌋ + 1 := by
  unfold build_10hz_timebase pyRange
  rw [pyInt_eq_floor (by positivity)]
  have hfl : (0 : ℤ) ≤ ⌊m * 10⌋ := Int.floor_nonneg.mpr (by positivity)
  rw [pyRangeLen_of_pos (by omega)]
  simp only [List.length_map, List.length_range]
  omega

theorem build_10hz_timebase_getD (m : ℚ) (i : ℕ)
    (hi : i < (build_10hz_timebase m).length) :
    (build_10hz_timebase m).getD i 0 = (i : ℚ) / 10 := by
  unfold build_10hz_timebase pyRange at *
  simp only [List.length_map, List.length_range] at hi
  rw [List.getD_eq_getElem?_getD, List.getElem?_map, List.getElem?_map,
    List.getElem?_range hi]
  simp only [Option.map_some', Option.getD_some]
  push_cast
  ring

/-! ## C2: the unified 10 Hz timeline -/

/-- The concrete sensor bundle refuting C2's "max over all streams": the GPS
stream ends at t = 1 s but the accelerometer stream ends at t = 2 s. -/
def c2Sensor : SensorJson :=
  { session_id := "s", road_type := "Secondary",
    gps := [[0], [1]], accelerometer := [[0], [2]],
    lane := [], vehicle := [], osm := [] }

/-- C2, counterexample.  The claim says the timeline tick count equals
`floor(max_timestamp * 10) + 1` where `max_timestamp` is the maximum over all
five streams.  On `c2Sensor` the code builds the timebase from the GPS
maximum only (1 s, hence 11 ticks), while the all-streams maximum is 2 s
(which would demand 21 ticks): the claimed equality fails. -/
theorem C2_timeline_counterexample :
    ((session_timebase c2Sensor).length : ℤ) ≠
      ⌊specMaxTimestampAllStreams c2Sensor * 10⌋ + 1 := by
  have hmax : seriesMax (tsCol c2Sensor.gps) = 1 := by
    norm_num [c2Sensor, tsCol, seriesMax, List.maximum_cons, Option.getD]
  have hall : specMaxTimestampAllStreams c2Sensor = 2 := by
    norm_num [c2Sensor, specMaxTimestampAllStreams, tsCol, seriesMax,
      List.maximum_cons, Option.getD]
  have hlen : ((session_timebase c2Sensor).length : ℤ) = 11 := by
    unfold session_timebase
    rw [hmax, build_10hz_timebase_length (by norm_num)]
    norm_num
  rw [hlen, hall]
  norm_num

/-- C2, amended.  The timeline covers `[0, max_gps_timestamp]` at 10 Hz where
`max_gps_timestamp` is the maximum timestamp of the GPS stream only (later
timestamps in the other four streams are ignored): the tick count is
`floor(max_gps_timestamp * 10) + 1` and tick `i` carries the synthetic
timestamp `i / 10`, so consecutive timestamps start at 0 and are spaced
exactly 0.1 s apart. -/
theorem C2_timeline_amended (s : SensorJson)
    (h : 0 ≤ seriesMax (tsCol s.gps)) :
    ((session_timebase s).length : ℤ) = ⌊seriesMax (tsCol s.gps) * 10⌋ + 1 ∧
    ∀ i < (session_timebase s).length,
      (session_timebase s).getD i 0 = (i : ℚ) / 10 := by
  constructor
  · exact build_10hz_timebase_length h
  · intro i hi
    exact build_10hz_timebase_getD _ i hi

/-- C2, witness: the amended theorem applied to `c2Sensor` (GPS maximum 1 s)
gives 11 ticks whose first two timestamps are 0 and 0.1. -/
theorem C2_timeline_amended_witness :
    (session_timebase c2Sensor).length = 11 ∧
    (session_timebase c2Sensor).getD 0 0 = 0 ∧
    (session_timebase c2Sensor).getD 1 0 = 1 / 10 := by
  have hmax : seriesMax (tsCol c2Sensor.gps) = 1 := by
    norm_num [c2Sensor, tsCol, seriesMax, List.maximum_cons, Option.getD]
  have h := C2_timeline_amended c2Sensor (by rw [hmax]; norm_num)
  have hlen : (session_timebase c2Sensor).length = 11 := by
    have h1 := h.1
    rw [hmax] at h1
    norm_num at h1
    omega
  refine ⟨hlen, ?_, ?_⟩
  · rw [h.2 0 (by omega)]
    norm_num
  · rw [h.2 1 (by omega)]
    norm_num

/-! ## C3: the windowing contract -/

/-- C3.  For a feature matrix with `rows ≥ windowLength`, windowing emits the
windows starting at offsets `0, stride, 2*stride, ...` exactly while
`offset + windowLength ≤ rows` (each an unpadded contiguous slice of the
input of exactly `windowLength` rows), so the window count is
`(rows - windowLength) / stride + 1`; with `rows < windowLength` it emits no
windows.  The backend's `make_windows` is the same slicing with the
road-type-selected stride, and also returns exactly those start offsets. -/
theorem C3_windowing (df : List (List ℚ)) (w stride : ℕ) (hs : 0 < stride)
    (dfr : DataFrame) (cols : List String) (rt : String) :
    (df.length < w → create_windows_inference df w stride = []) ∧
    (w ≤ df.length →
      (create_windows_inference df w stride).length =
        (df.length - w) / stride + 1 ∧
      create_windows_inference df w stride =
        (List.range ((df.length - w) / stride + 1)).map
          (fun i => (df.drop (i * stride)).take w) ∧
      (∀ i, i < (df.length - w) / stride + 1 ↔ i * stride + w ≤ df.length) ∧
      (∀ i < (df.length - w) / stride + 1,
        ((df.drop (i * stride)).take w).length = w)) ∧
    (make_windows dfr cols w rt).1 =
      create_windows_inference (dfSelect dfr cols) w (strideFor rt) ∧
    (make_windows dfr cols w rt).2 =
      (List.range (pyRangeLen (((dfSelect dfr cols).length : ℤ) - w + 1)
        (strideFor rt))).map (fun i => i * strideFor rt) := by
  refine ⟨?_, ?_, make_windows_eq dfr cols w rt, make_windows_idxs_eq dfr cols w rt⟩
  · intro h
    rw [create_windows_inference_eq_map, pyRangeLen_window_zero stride h]
    simp
  · intro h
    refine ⟨?_, ?_, window_offset_iff hs h, ?_⟩
    · rw [create_windows_inference_length, pyRangeLen_window_count stride h]
    · rw [create_windows_inference_eq_map, pyRangeLen_window_count stride h]
    · intro i hi
      exact window_slice_length (window_offset_le hs h hi)

/-- C3, witness: on a 3-row matrix with window length 2 and stride 1 the
theorem yields window count 2. -/
theorem C3_windowing_witness :
    (create_windows_inference [[(1 : ℚ)], [2], [3]] 2 1).length = 2 := by
  have h := (C3_windowing [[(1 : ℚ)], [2], [3]] 2 1 Nat.one_pos
    ⟨[], []⟩ [] "x").2.1 (by norm_num)
  rw [h.1]
  simp

/-! ## KNN anomaly alerts
(`src/ml-model/src/knn_alerts_inference.py`) -/

/-- Python exceptions the embedded pipeline can raise. -/
inductive PyErr where
  | valueError : String → PyErr
  | keyError : String → PyErr
deriving DecidableEq

/-- One entry of a window's `trigger_features` list. -/
structure TriggerFeature where
  feature : String
  value : ℚ
  unit : String
deriving DecidableEq

/-- One row of `knn_feature_df`: the named per-window feature means (a column
absent from the frame is `none`; `row.get(name, default)` then yields the
default), plus the `window_id` and `predicted_label` columns the pipeline
attaches. -/
structure KnnRow where
  feat : String → Option ℚ
  window_id : ℤ
  predicted_label : String

/-- pandas `row.get(name, default)`. -/
def knnGet (r : KnnRow) (name : String) (dflt : ℚ) : ℚ := (r.feat name).getD dflt

/-- Junk row for out-of-range positional access (never reached when the
distance vector has one entry per row, as `kneighbors` guarantees). -/
def defaultKnnRow : KnnRow := ⟨fun _ => none, 0, ""⟩

/-- The cause-score dictionary built for an anomalous window
(`knn_alerts_inference.py` lines 89–105), in Python dict insertion order.
The guard on `ttc_front_mean` uses default 10; the score then reads the
column directly (present whenever the guard can fire). -/
def cause_scores (row : KnnRow) : List (String × ℚ) :=
  [("Harsh Driving", |knnGet row "vert_acc_mean" 0| + |knnGet row "horiz_acc_mean" 0|),
   ("Overspeeding", knnGet row "speed_kmh_mean" 0 + knnGet row "speed_ratio_mean" 0),
   ("Unstable Steering", |knnGet row "difcourse_mean" 0| + |knnGet row "horiz_acc_mean" 0|
      + |knnGet row "course_mean" 0|),
   ("Tailgating", if knnGet row "ttc_front_mean" 10 < 2
      then 2 - knnGet row "ttc_front_mean" 0 else 0)]

/-- The per-cause `trigger_features` lists (lines 110–132). -/
def trigger_features_for (cause : String) (row : KnnRow) : List TriggerFeature :=
  if cause = "Overspeeding" then
    [⟨"Speed (km/h)", knnGet row "speed_kmh_mean" 0, "km/h"⟩,
     ⟨"Speed Ratio", knnGet row "speed_ratio_mean" 0, "ratio"⟩]
  else if cause = "Harsh Driving" then
    [⟨"Vertical Acc", knnGet row "vert_acc_mean" 0, "m/s²"⟩,
     ⟨"Horizontal Acc", knnGet row "horiz_acc_mean" 0, "m/s²"⟩]
  else if cause = "Unstable Steering" then
    [⟨"Course Change", knnGet row "difcourse_mean" 0, "deg"⟩,
     ⟨"Horizontal Acc", knnGet row "horiz_acc_mean" 0, "m/s²"⟩]
  else if cause = "Tailgating" then
    [⟨"TTC Front", knnGet row "ttc_front_mean" 0, "seconds"⟩]
  else []

/-- A window result before severity normalization (the dict built in the
detection loop, still carrying `severity_raw`). -/
structure RawWindowResult where
  window_id : ℤ
  predicted_label : String
  alert : String
  alert_cause : String
  severity_raw : ℚ
  knn_distance : ℚ
  trigger_features : List TriggerFeature
deriving DecidableEq

/-- A window result as returned (`severity_raw` deleted, normalized
`severity` in its place). -/
structure WindowResult where
  window_id : ℤ
  predicted_label : String
  alert : String
  alert_cause : String
  severity : ℚ
  knn_distance : ℚ
  trigger_features : List TriggerFeature
deriving DecidableEq

/-- Junk values for out-of-range `getD` access in statements. -/
def defaultRawWR : RawWindowResult := ⟨0, "", "", "", 0, 0, []⟩

/-- Junk values for out-of-range `getD` access in statements. -/
def defaultWR : WindowResult := ⟨0, "", "", "", 0, 0, []⟩

/-- One iteration of the detection loop (lines 76–144): flag the window iff
`knn_distance[i] > threshold`; an anomalous window gets the first maximal
cause score as its cause and that score as raw severity. -/
def knn_window_raw (row : KnnRow) (dist threshold : ℚ) : RawWindowResult :=
  if threshold < dist then
    { window_id := row.window_id, predicted_label := row.predicted_label,
      alert := "Abnormal",
      alert_cause := (pyMaxByVal (cause_scores row)).1,
      severity_raw := (pyMaxByVal (cause_scores row)).2,
      knn_distance := dist,
      trigger_features := trigger_features_for (pyMaxByVal (cause_scores row)).1 row }
  else
    { window_id := row.window_id, predicted_label := row.predicted_label,
      alert := "No alert", alert_cause := "None", severity_raw := 0,
      knn_distance := dist, trigger_features := [] }

/-- The per-road-type KNN artifacts.  All are loaded from disk or computed by
sklearn, hence parameters of the embedding: `knn_feature_cols` and
`threshold` model the JSON artifacts, `scalerT` models `scaler.transform`,
and `kneighborsMeanDist` models `knn_model.kneighbors(X_scaled)` followed by
`distances.mean(axis=1)`. -/
structure KnnArtifacts where
  knn_feature_cols : List String
  threshold : ℚ
  scalerT : List (List ℚ) → List (List ℚ)
  kneighborsMeanDist : List (List ℚ) → List ℚ

/-- The two road types' artifact bundles on disk. -/
structure KnnStore where
  motor : KnnArtifacts
  secondary : KnnArtifacts

/-- `load_knn_components(road_type)` (lines 11–36): strip+lowercase dispatch;
anything outside the motorway/secondary families raises `ValueError`. -/
def load_knn_components (st : KnnStore) (road_type : String) :
    Except PyErr KnnArtifacts :=
  if pyStripLower road_type = "motorway" ∨ pyStripLower road_type = "motor" then
    .ok st.motor
  else if pyStripLower road_type = "secondary" then
    .ok st.secondary
  else
    .error (.valueError ("Unknown road type: " ++ road_type))

/-- `X = knn_feature_df[knn_feature_cols]` — project the rows onto the
artifact's feature columns. -/
def knnX (cols : List String) (rows : List KnnRow) : List (List ℚ) :=
  rows.map (fun r => cols.map (fun c => knnGet r c 0))

/-- The raw results of the detection loop: scale, compute the mean k-NN
distances, and run `knn_window_raw` for `i in range(len(knn_distance))`. -/
def knn_raw_results (A : KnnArtifacts) (rows : List KnnRow) :
    List RawWindowResult :=
  let dist := A.kneighborsMeanDist (A.scalerT (knnX A.knn_feature_cols rows))
  (List.range dist.length).map (fun i =>
    knn_window_raw (rows.getD i defaultKnnRow) (dist.getD i 0) A.threshold)

/-- The severity-normalization pass (lines 146–155): in-session min–max
normalization to a 0–100 scale, rounded to two decimals; when all raw
severities coincide every window gets severity 0. -/
def finalizeSeverity (min_s max_s : ℚ) (r : RawWindowResult) : WindowResult :=
  { window_id := r.window_id, predicted_label := r.predicted_label,
    alert := r.alert, alert_cause := r.alert_cause,
    severity := if min_s < max_s
      then pyRound2 ((r.severity_raw - min_s) / (max_s - min_s) * 100)
      else 0,
    knn_distance := r.knn_distance,
    trigger_features := r.trigger_features }

/-- `run_knn_alerts` after `load_knn_components` (the rest of the Python
function body): detection loop then severity normalization.  Python's
`min([])` / `max([])` on an empty window set raise `ValueError`. -/
def run_knn_alerts_with (A : KnnArtifacts) (rows : List KnnRow) :
    Except PyErr (List WindowResult) :=
  let raws := knn_raw_results A rows
  if raws.isEmpty then .error (.valueError "min() arg is an empty sequence")
  else
    let sevs := raws.map (fun r => r.severity_raw)
    let min_s := sevs.minimum.getD 0
    let max_s := sevs.maximum.getD 0
    .ok (raws.map (finalizeSeverity min_s max_s))

/-- `run_knn_alerts(knn_feature_df, road_type)` (lines 63–157). -/
def run_knn_alerts (st : KnnStore) (rows : List KnnRow) (road_type : String) :
    Except PyErr (List WindowResult) :=
  match load_knn_components st road_type with
  | .error e => .error e
  | .ok A => run_knn_alerts_with A rows

/-- `normalize_severity(knn_distance, q95, q99)` from
`notebooks/phase3_OUTDATED.py` (lines 278–284): the q95/q99 interpolation the
spec describes.  It exists only in the outdated notebook, not in the live
inference path. -/
def normalize_severity (knn_distance q95 q99 : ℚ) : ℚ :=
  if knn_distance ≤ q95 then 0
  else if q99 ≤ knn_distance then 1
  else (knn_distance - q95) / (q99 - q95)

/-! ## Session summary (`build_session_summary`, lines 164–193) -/

/-- The session-level summary dict. -/
structure SessionSummary where
  session_id : String
  road_type : String
  total_windows : ℕ
  total_alerts : ℕ
  dominant_alert : String
  average_severity : ℚ
  max_severity : ℚ
  session_risk_score : ℚ

/-- `build_session_summary(result_df, road_type, session_id)`: note
`value_counts` runs over the `alert_cause` column of **all** windows —
non-anomalous windows contribute their `"None"` cause to the count. -/
def build_session_summary (result : List WindowResult)
    (road_type session_id : String) : SessionSummary :=
  let total_windows := result.length
  let total_alerts := (result.filter (fun w => w.alert = "Abnormal")).length
  let dominant_alert :=
    if 0 < total_alerts
    then valueCountsIdxmax (result.map (fun w => w.alert_cause))
    else "None"
  let avg_severity := (result.map (fun w => w.severity)).sum / total_windows
  let max_severity := (result.map (fun w => w.severity)).maximum.getD 0
  let risk := (total_alerts : ℚ) / total_windows * 50 + avg_severity / 100 * 50
  { session_id := session_id, road_type := road_type,
    total_windows := total_windows, total_alerts := total_alerts,
    dominant_alert := dominant_alert,
    average_severity := pyRound2 avg_severity,
    max_severity := pyRound2 max_severity,
    session_risk_score := pyRound2 risk }

/-! ## KNN alert lemmas -/

theorem getD_map_lt {α β : Type} (f : α → β) (l : List α) (i : ℕ)
    (hi : i < l.length) (d : β) (d' : α) :
    (l.map f).getD i d = f (l.getD i d') := by
  rw [List.getD_eq_getElem?_getD, List.getElem?_map, List.getD_eq_getElem?_getD,
    List.getElem?_eq_getElem hi]
  simp

theorem run_knn_alerts_with_ok {A : KnnArtifacts} {rows : List KnnRow}
    {out : List WindowResult} (h : run_knn_alerts_with A rows = .ok out) :
    knn_raw_results A rows ≠ [] ∧
    out = (knn_raw_results A rows).map
      (finalizeSeverity
        (((knn_raw_results A rows).map (fun r => r.severity_raw)).minimum.getD 0)
        (((knn_raw_results A rows).map (fun r => r.severity_raw)).maximum.getD 0)) := by
  simp only [run_knn_alerts_with] at h
  split at h
  · exact absurd h (by simp)
  · rename_i hne
    refine ⟨by simpa [List.isEmpty_iff] using hne, ?_⟩
    simp only [Except.ok.injEq] at h
    exact h.symm

theorem normalized_severity_in_range {min_s max_s raw : ℚ}
    (h1 : min_s ≤ raw) (h2 : raw ≤ max_s) :
    0 ≤ (if min_s < max_s then pyRound2 ((raw - min_s) / (max_s - min_s) * 100) else 0) ∧
    (if min_s < max_s then pyRound2 ((raw - min_s) / (max_s - min_s) * 100) else 0) ≤ 100 := by
  split
  · rename_i hlt
    have hpos : 0 < max_s - min_s := by linarith
    have hv0 : 0 ≤ (raw - min_s) / (max_s - min_s) * 100 :=
      mul_nonneg (div_nonneg (by linarith) (by linarith)) (by norm_num)
    have hv1 : (raw - min_s) / (max_s - min_s) * 100 ≤ 100 := by
      rw [div_mul_eq_mul_div, div_le_iff₀ hpos]
      linarith
    exact ⟨pyRound2_nonneg hv0, pyRound2_le_hundred hv1⟩
  · norm_num

theorem minimum_getD_spec {l : List ℚ} (h : l ≠ []) :
    l.minimum.getD 0 ∈ l ∧ ∀ a ∈ l, l.minimum.getD 0 ≤ a := by
  have hne : l.minimum ≠ none := by
    intro hcon
    exact h (List.minimum_eq_none.mp hcon)
  obtain ⟨m, hm⟩ := Option.ne_none_iff_exists'.mp hne
  have hg : l.minimum.getD 0 = m := by rw [hm]; rfl
  rw [hg]
  exact ⟨List.minimum_mem hm, fun a ha => List.minimum_le_of_mem ha hm⟩

theorem maximum_getD_spec {l : List ℚ} (h : l ≠ []) :
    l.maximum.getD 0 ∈ l ∧ ∀ a ∈ l, a ≤ l.maximum.getD 0 := by
  have hne : l.maximum ≠ none := by
    intro hcon
    exact h (List.maximum_eq_none.mp hcon)
  obtain ⟨m, hm⟩ := Option.ne_none_iff_exists'.mp hne
  have hg : l.maximum.getD 0 = m := by rw [hm]; rfl
  rw [hg]
  exact ⟨List.maximum_mem hm, fun a ha => List.le_maximum_of_mem ha hm⟩

/-! ## C10: in-session min–max severity normalization -/

/-- C10.  For every non-empty window set accepted by `run_knn_alerts`, every
emitted severity lies in [0, 100]; some window's severity is exactly 0
(severity is min–max normalized over the session's own raw severities); and
when all windows share one raw severity — in particular when every window is
anomalous with equal cause scores — every window is reported with severity 0. -/
theorem C10_severity_minmax (st : KnnStore) (rows : List KnnRow)
    (rt : String) (A : KnnArtifacts) (out : List WindowResult)
    (hA : load_knn_components st rt = .ok A)
    (h : run_knn_alerts st rows rt = .ok out) :
    (∀ wr ∈ out, 0 ≤ wr.severity ∧ wr.severity ≤ 100) ∧
    (∃ wr ∈ out, wr.severity = 0) ∧
    ((∀ r1 ∈ knn_raw_results A rows, ∀ r2 ∈ knn_raw_results A rows,
        r1.severity_raw = r2.severity_raw) →
      ∀ wr ∈ out, wr.severity = 0) := by
  have hw : run_knn_alerts_with A rows = .ok out := by
    unfold run_knn_alerts at h
    rw [hA] at h
    exact h
  obtain ⟨hne, hout⟩ := run_knn_alerts_with_ok hw
  have hsne : (knn_raw_results A rows).map (fun r => r.severity_raw) ≠ [] := by
    simpa using hne
  obtain ⟨hmmem, hmle⟩ := minimum_getD_spec hsne
  obtain ⟨hMmem, hMle⟩ := maximum_getD_spec hsne
  set m := ((knn_raw_results A rows).map (fun r => r.severity_raw)).minimum.getD 0 with hm
  set M := ((knn_raw_results A rows).map (fun r => r.severity_raw)).maximum.getD 0 with hM
  refine ⟨?_, ?_, ?_⟩
  · intro wr hwr
    rw [hout] at hwr
    obtain ⟨r, hr, rfl⟩ := List.mem_map.mp hwr
    have h1 : m ≤ r.severity_raw := hmle _ (List.mem_map.mpr ⟨r, hr, rfl⟩)
    have h2 : r.severity_raw ≤ M := hMle _ (List.mem_map.mpr ⟨r, hr, rfl⟩)
    exact normalized_severity_in_range h1 h2
  · obtain ⟨r0, hr0, hr0v⟩ := List.mem_map.mp hmmem
    refine ⟨finalizeSeverity m M r0, by rw [hout]; exact List.mem_map.mpr ⟨r0, hr0, rfl⟩, ?_⟩
    show (if m < M then pyRound2 ((r0.severity_raw - m) / (M - m) * 100) else 0) = 0
    rw [hr0v]
    split
    · rw [sub_self, zero_div, zero_mul, pyRound2_zero]
    · rfl
  · intro hall wr hwr
    obtain ⟨r1, hr1, hr1v⟩ := List.mem_map.mp hmmem
    obtain ⟨r2, hr2, hr2v⟩ := List.mem_map.mp hMmem
    have heq : m = M := by rw [← hr1v, ← hr2v]; exact hall r1 hr1 r2 hr2
    rw [hout] at hwr
    obtain ⟨r, hr, rfl⟩ := List.mem_map.mp hwr
    show (if m < M then pyRound2 ((r.severity_raw - m) / (M - m) * 100) else 0) = 0
    rw [if_neg (by rw [heq]; exact lt_irrefl M)]

theorem pyRound2_int (n : ℤ) : pyRound2 (n : ℚ) = n := by
  unfold pyRound2
  have h1 : ((n : ℚ) * 100) = ((100 * n : ℤ) : ℚ) := by push_cast; ring
  have h2 : roundHalfEven ((100 * n : ℤ) : ℚ) = 100 * n := by
    rw [rhe_of_lt_half (by rw [Int.floor_intCast]; norm_num)]
    exact Int.floor_intCast _
  rw [h1, h2]
  push_cast
  ring

theorem pyRound2_hundred : pyRound2 100 = 100 := by
  have h := pyRound2_int 100
  push_cast at h
  exact h

theorem trigger_features_harsh (row : KnnRow) :
    trigger_features_for "Harsh Driving" row =
      [⟨"Vertical Acc", knnGet row "vert_acc_mean" 0, "m/s²"⟩,
       ⟨"Horizontal Acc", knnGet row "horiz_acc_mean" 0, "m/s²"⟩] := by
  unfold trigger_features_for
  rw [if_neg (by decide), if_pos rfl]

theorem trigger_features_unstable (row : KnnRow) :
    trigger_features_for "Unstable Steering" row =
      [⟨"Course Change", knnGet row "difcourse_mean" 0, "deg"⟩,
       ⟨"Horizontal Acc", knnGet row "horiz_acc_mean" 0, "m/s²"⟩] := by
  unfold trigger_features_for
  rw [if_neg (by decide), if_neg (by decide), if_pos rfl]

/-! ## C10 witness input -/

/-- Concrete witness artifacts: one window at mean k-NN distance 1 against
threshold 0. -/
def w10A : KnnArtifacts := ⟨[], 0, fun x => x, fun _ => [1]⟩

/-- Concrete witness store. -/
def w10Store : KnnStore := ⟨w10A, w10A⟩

/-- Concrete witness window set: one window with no feature columns. -/
def w10Rows : List KnnRow := [⟨fun _ => none, 0, "Normal"⟩]

/-- The output `run_knn_alerts` produces on the witness input: the single
window is anomalous (distance 1 > threshold 0) yet its severity is 0. -/
def w10Out : List WindowResult :=
  [⟨0, "Normal", "Abnormal", "Harsh Driving", 0, 1,
    [⟨"Vertical Acc", 0, "m/s²"⟩, ⟨"Horizontal Acc", 0, "m/s²"⟩]⟩]

theorem w10_load : load_knn_components w10Store "motorway" = .ok w10A := by
  unfold load_knn_components
  rw [if_pos (by decide)]
  rfl

theorem w10_run : run_knn_alerts w10Store w10Rows "motorway" = .ok w10Out := by
  unfold run_knn_alerts
  rw [w10_load]
  show run_knn_alerts_with w10A w10Rows = .ok w10Out
  norm_num [run_knn_alerts_with, knn_raw_results, knn_window_raw, cause_scores,
    knnGet, pyMaxByVal, knnX, finalizeSeverity, w10A, w10Rows, w10Out,
    trigger_features_harsh, List.minimum_singleton, List.maximum_singleton,
    Option.getD, List.range_succ]

/-- C10, witness: on the concrete all-anomalous one-window session the
theorem yields a window of severity exactly 0. -/
theorem C10_severity_minmax_witness : ∃ wr ∈ w10Out, wr.severity = 0 :=
  (C10_severity_minmax w10Store w10Rows "motorway" w10A w10Out w10_load
    w10_run).2.1

/-! ## C1: anomaly severity -/

/-- Concrete artifacts refuting C1: threshold 1, two windows at mean k-NN
distances 5 and 2. -/
def c1A : KnnArtifacts :=
  ⟨["vert_acc_mean"], 1, fun x => x, fun _ => [5, 2]⟩

/-- Concrete store for the C1 input. -/
def c1Store : KnnStore := ⟨c1A, c1A⟩

/-- Two windows: the first has every cause score 0 (no feature columns), the
second has every feature mean equal to 10, making "Unstable Steering" (score
30) its dominant cause. -/
def c1Rows : List KnnRow :=
  [⟨fun _ => none, 0, "Normal"⟩,
   ⟨fun _ => some 10, 1, "Normal"⟩]

/-- What `run_knn_alerts` returns on the C1 input: the window at distance 5
gets severity 0, the window at distance 2 gets severity 100. -/
def c1Out : List WindowResult :=
  [⟨0, "Normal", "Abnormal", "Harsh Driving", 0, 5,
    [⟨"Vertical Acc", 0, "m/s²"⟩, ⟨"Horizontal Acc", 0, "m/s²"⟩]⟩,
   ⟨1, "Normal", "Abnormal", "Unstable Steering", 100, 2,
    [⟨"Course Change", 10, "deg"⟩, ⟨"Horizontal Acc", 10, "m/s²"⟩]⟩]

theorem c1_run_with : run_knn_alerts_with c1A c1Rows = .ok c1Out := by
  norm_num [run_knn_alerts_with, knn_raw_results, knn_window_raw, cause_scores,
    knnGet, pyMaxByVal, knnX, finalizeSeverity, c1A, c1Rows, c1Out,
    trigger_features_harsh, trigger_features_unstable, List.minimum_cons,
    List.maximum_cons, List.minimum_singleton, List.maximum_singleton,
    ← WithTop.coe_min, ← WithBot.coe_max, inf_eq_min, sup_eq_max, min_def,
    max_def, Option.getD, List.range_succ, defaultKnnRow,
    pyRound2_zero, pyRound2_hundred]

theorem c1_load : load_knn_components c1Store "secondary" = .ok c1A := by
  unfold load_knn_components
  rw [if_neg (by decide), if_pos (by decide)]
  rfl

/-- C1, counterexample.  The claim says severity is a normalized position of
the window's k-NN distance between fixed q95/q99 quantiles, hence monotone
non-decreasing in k-NN distance.  On this concrete session the window with
the larger distance (5) is reported with severity 0 while the window with
the smaller distance (2) is reported with severity 100. -/
theorem C1_severity_counterexample :
    run_knn_alerts c1Store c1Rows "secondary" = .ok c1Out ∧
    (c1Out.getD 0 defaultWR).knn_distance = 5 ∧
    (c1Out.getD 1 defaultWR).knn_distance = 2 ∧
    (c1Out.getD 0 defaultWR).severity = 0 ∧
    (c1Out.getD 1 defaultWR).severity = 100 ∧
    (2 : ℚ) < 5 ∧ (0 : ℚ) < 100 := by
  refine ⟨?_, rfl, rfl, rfl, rfl, by norm_num, by norm_num⟩
  unfold run_knn_alerts
  rw [c1_load]
  exact c1_run_with

/-- C1, amended.  In the live inference path (`run_knn_alerts`) a window's
severity is its dominant-cause raw score min–max normalized over the
session's own windows (so it is monotone in the raw cause score, not in the
k-NN distance); the claimed q95/q99 linear interpolation describes only
`normalize_severity` in the outdated notebook, which is 0 at or below q95,
1 at or above q99, and monotone non-decreasing in the distance. -/
theorem C1_severity_amended (A : KnnArtifacts) (rows : List KnnRow)
    (out : List WindowResult) (h : run_knn_alerts_with A rows = .ok out) :
    (∀ i j, i < out.length → j < out.length →
      ((knn_raw_results A rows).getD i defaultRawWR).severity_raw ≤
        ((knn_raw_results A rows).getD j defaultRawWR).severity_raw →
      (out.getD i defaultWR).severity ≤ (out.getD j defaultWR).severity) ∧
    (∀ d q95 q99 : ℚ, d ≤ q95 → normalize_severity d q95 q99 = 0) ∧
    (∀ d q95 q99 : ℚ, q95 < d → q99 ≤ d → normalize_severity d q95 q99 = 1) ∧
    (∀ q95 q99 d dp : ℚ, q95 < q99 → d ≤ dp →
      normalize_severity d q95 q99 ≤ normalize_severity dp q95 q99) := by
  obtain ⟨hne, hout⟩ := run_knn_alerts_with_ok h
  set m := (((knn_raw_results A rows)).map (fun r => r.severity_raw)).minimum.getD 0 with hmdef
  set M := (((knn_raw_results A rows)).map (fun r => r.severity_raw)).maximum.getD 0 with hMdef
  refine ⟨?_, ?_, ?_, ?_⟩
  · intro i j hi hj hraw
    have hlen : out.length = (knn_raw_results A rows).length := by rw [hout]; simp
    have hgi : out.getD i defaultWR =
        finalizeSeverity m M ((knn_raw_results A rows).getD i defaultRawWR) := by
      rw [hout]
      exact getD_map_lt _ _ i (by omega) _ _
    have hgj : out.getD j defaultWR =
        finalizeSeverity m M ((knn_raw_results A rows).getD j defaultRawWR) := by
      rw [hout]
      exact getD_map_lt _ _ j (by omega) _ _
    rw [hgi, hgj]
    show (if m < M then pyRound2 (_ / (M - m) * 100) else 0) ≤
      (if m < M then pyRound2 (_ / (M - m) * 100) else 0)
    split
    · rename_i hlt
      apply pyRound2_monotone
      apply mul_le_mul_of_nonneg_right _ (by norm_num : (0 : ℚ) ≤ 100)
      have hpos : (0 : ℚ) < M - m := by linarith
      gcongr
    · exact le_refl 0
  · intro d q95 q99 hd
    unfold normalize_severity
    rw [if_pos hd]
  · intro d q95 q99 h1 h2
    unfold normalize_severity
    rw [if_neg (by linarith), if_pos h2]
  · intro q95 q99 d dp hq hdd
    unfold normalize_severity
    by_cases h1 : d ≤ q95
    · rw [if_pos h1]
      by_cases h2 : dp ≤ q95
      · rw [if_pos h2]
      · rw [if_neg h2]
        push_neg at h2
        by_cases h3 : q99 ≤ dp
        · rw [if_pos h3]
          norm_num
        · rw [if_neg h3]
          push_neg at h3
          exact div_nonneg (by linarith) (by linarith)
    · push_neg at h1
      rw [if_neg (by linarith : ¬ d ≤ q95),
        if_neg (by linarith : ¬ dp ≤ q95)]
      by_cases h2 : q99 ≤ d
      · rw [if_pos h2, if_pos (by linarith)]
      · push_neg at h2
        rw [if_neg (by linarith : ¬ q99 ≤ d)]
        by_cases h3 : q99 ≤ dp
        · rw [if_pos h3]
          rw [div_le_one (by linarith)]
          linarith
        · push_neg at h3
          rw [if_neg (by linarith : ¬ q99 ≤ dp)]
          have hpos : (0 : ℚ) < q99 - q95 := by linarith
          gcongr

/-- C1, witness: the amended theorem applied to the concrete C1 session; its
notebook conjunct instantiated at distance 1 with q95 = 2, q99 = 4 gives
severity 0. -/
theorem C1_severity_amended_witness : normalize_severity 1 2 4 = 0 :=
  (C1_severity_amended c1A c1Rows c1Out c1_run_with).2.1 1 2 4 (by norm_num)

/-! ## C8: the dominant cause -/

/-- A three-window session: one anomalous window whose cause is
"Harsh Driving", two normal windows (cause "None"). -/
def c8Rows : List WindowResult :=
  [⟨0, "Normal", "Abnormal", "Harsh Driving", 50, 5, []⟩,
   ⟨1, "Normal", "No alert", "None", 0, 1, []⟩,
   ⟨2, "Normal", "No alert", "None", 0, 1, []⟩]

/-- C8 (code bug).  With one anomalous window (cause "Harsh Driving") and two
normal windows, `build_session_summary` reports `dominant_alert = "None"`
even though `total_alerts = 1 > 0`, because `value_counts` counts the
`alert_cause` of all windows and the non-anomalous "None" outnumbers every
real cause; the most frequent cause among the anomalous windows only — what
the claim (and the guard `if total_alerts > 0 else "None"`) intends — is
"Harsh Driving". -/
theorem C8_dominant_cause_bug :
    (build_session_summary c8Rows "secondary" "s").total_alerts = 1 ∧
    (build_session_summary c8Rows "secondary" "s").dominant_alert = "None" ∧
    valueCountsIdxmax ((c8Rows.filter (fun w => w.alert = "Abnormal")).map
      (fun w => w.alert_cause)) = "Harsh Driving" := by
  refine ⟨by decide, by decide, by decide⟩

/-! ## Behavior classification
(`run_classification` in `src/ml-model/src/preprocessing_inference.py`) -/

/-- `LABELS` in `app/ml/predictor.py` line 11. -/
def LABELS : List String := ["Aggressive", "Drowsy", "Normal"]

/-- The `label_map` dict inside `map_classes_to_labels`
(`preprocessing_inference.py` lines 301–305). -/
def label_map (i : ℕ) : Option String :=
  if i = 0 then some "Aggressive"
  else if i = 1 then some "Normal"
  else if i = 2 then some "Drowsy"
  else none

/-- `map_classes_to_labels(class_indices)`: dict lookup per class index; an
index outside the map raises `KeyError`. -/
def map_classes_to_labels (idxs : List ℕ) : Except PyErr (List String) :=
  idxs.mapM (fun i => match label_map i with
    | some s => Except.ok s
    | none => Except.error (PyErr.keyError (toString i)))

/-- `get_predicted_classes(predictions)`: `np.argmax(predictions, axis=1)`. -/
def get_predicted_classes (preds : List (List ℚ)) : List ℕ := preds.map npArgmax

/-- `scale_windows(windows, scaler_path)`: flatten the `(n, window_size, f)`
array to 2-D, apply the saved scaler's `transform`, reshape back. -/
def scale_windows (scalerT : List (List ℚ) → List (List ℚ))
    (windows : List (List (List ℚ))) (window_size : ℕ) :
    List (List (List ℚ)) :=
  if windows.isEmpty then windows
  else chunkList window_size (scalerT windows.join)

/-- The ml-model path's loaded artifacts (keras models and pickled scalers on
disk — parameters of the embedding).  A model maps the scaled
`(n, 2400, f)` window array to the `(n, 3)` softmax output. -/
structure MlArtifacts where
  motor_model : List (List (List ℚ)) → List (List ℚ)
  secondary_model : List (List (List ℚ)) → List (List ℚ)
  motor_scaler : List (List ℚ) → List (List ℚ)
  secondary_scaler : List (List ℚ) → List (List ℚ)

/-- Which road-type artifact bundle `run_classification` selected. -/
inductive MlChoice where
  | motor
  | secondary
deriving DecidableEq

/-- The road-type dispatch of `run_classification` (lines 323–332): exact
string match on `"Motorway"` / `"Secondary"`; anything else raises
`ValueError("Unknown road type")`. -/
def run_classification_dispatch (road_type : String) :
    Except PyErr (ℕ × MlChoice) :=
  if road_type = "Motorway" then .ok (240, .motor)
  else if road_type = "Secondary" then .ok (260, .secondary)
  else .error (.valueError "Unknown road type")

/-- A value of the heterogeneous dict `run_classification` returns. -/
inductive PyVal where
  | str : String → PyVal
  | strList : List String → PyVal
  | mat3 : List (List (List ℚ)) → PyVal
deriving DecidableEq

/-- Python dict subscription `d[k]`: `KeyError` when the key is absent. -/
def dictGet (d : List (String × PyVal)) (k : String) : Except PyErr PyVal :=
  match d.lookup k with
  | some v => .ok v
  | none => .error (.keyError k)

/-- The string payload of a `PyVal` (Python would duck-type; the pipeline
only ever reads strings where it expects them). -/
def pyValStr : PyVal → String
  | .str s => s
  | _ => ""

/-- The string-list payload of a `PyVal`. -/
def pyValStrList : PyVal → List String
  | .strList l => l
  | _ => []

/-- `run_classification(sensor_json)` (lines 310–361): preprocess, dispatch
on the road type, window, and — when at least one window exists — scale,
predict, and decode labels; with too few rows it returns the
`{"session_id", "error"}` dict (note: no `"road_type"` key). -/
def run_classification (K : PreprocKernels) (A : MlArtifacts)
    (s : SensorJson) : Except PyErr (List (String × PyVal)) :=
  let df := preprocess_session_from_json K s
  match run_classification_dispatch s.road_type with
  | .error e => .error e
  | .ok (stride, choice) =>
    let windows := create_windows_inference df 2400 stride
    if windows.isEmpty then
      .ok [("session_id", .str s.session_id),
           ("error", .str "Not enough data for windowing")]
    else
      let scaler := match choice with
        | .motor => A.motor_scaler
        | .secondary => A.secondary_scaler
      let model := match choice with
        | .motor => A.motor_model
        | .secondary => A.secondary_model
      let scaled := scale_windows scaler windows 2400
      let preds := model scaled
      let cls := get_predicted_classes preds
      match map_classes_to_labels cls with
      | .error e => .error e
      | .ok labels =>
        .ok [("session_id", .str s.session_id),
             ("road_type", .str s.road_type),
             ("scaled_windows", .mat3 scaled),
             ("predicted_labels", .strList labels)]

/-- `create_knn_ready_windows_inference(windows, knn_feature_cols)`
(`knn_alerts_inference.py` lines 43–56): one row per window whose column
`knn_feature_cols[i]` is `np.mean(window[:, i])`. -/
def create_knn_ready_windows_inference (windows : List (List (List ℚ)))
    (cols : List String) : List (String → Option ℚ) :=
  windows.map (fun w => fun name =>
    match cols.indexOf? name with
    | some i => some ((w.map (fun r => r.getD i 0)).sum / w.length)
    | none => none)

/-- `run_full_knn_pipeline(sensor_json)` (lines 205–246): classification
first, then — subscripting the returned dict — preprocessing again,
windowing with the knn stride (`240 if road_type.lower() == "motorway" else
260`), per-window feature means, and alert detection plus session summary. -/
def run_full_knn_pipeline (K : PreprocKernels) (A : MlArtifacts)
    (st : KnnStore) (s : SensorJson) :
    Except PyErr (SessionSummary × List WindowResult) := do
  let cr ← run_classification K A s
  let road_type ← dictGet cr "road_type"
  let session_id ← dictGet cr "session_id"
  let predicted_labels ← dictGet cr "predicted_labels"
  let df := preprocess_session_from_json K s
  let stride := if pyLower (pyValStr road_type) = "motorway" then 240 else 260
  let windows := create_windows_inference df 2400 stride
  if windows.isEmpty then
    .error (.valueError "Not enough data for windowing")
  else do
    let AK ← load_knn_components st (pyValStr road_type)
    let feats := create_knn_ready_windows_inference windows AK.knn_feature_cols
    let rows := (List.range feats.length).map (fun (i : ℕ) =>
      (⟨feats.getD i (fun _ => none), (i : ℤ),
        (pyValStrList predicted_labels).getD i ""⟩ : KnnRow))
    let window_results ← run_knn_alerts st rows (pyValStr road_type)
    return (build_session_summary window_results (pyValStr road_type)
      (pyValStr session_id), window_results)

/-! ## The backend predictor (`src/backend/app/ml/predictor.py`) -/

/-- The backend's loaded artifact registry (`load_artifacts()` in
`keras_runtime.py` — on-disk models, scalers and the feature schema, hence
parameters of the embedding). -/
structure BackendArtifacts where
  feature_order : List String
  window_length : ℕ
  motor_model : List (List (List ℚ)) → List (List ℚ)
  secondary_model : List (List (List ℚ)) → List (List ℚ)
  motor_scaler : List (List ℚ) → List (List ℚ)
  secondary_scaler : List (List ℚ) → List (List ℚ)

/-- `use_motor = road in ["motor", "motorway", "highway"]` after
`(road_type or "").strip().lower()` (predictor.py lines 24–25):
anything else silently selects the secondary bundle. -/
def predict_use_motor (road_type : String) : Bool :=
  pyStripLower road_type ∈ ["motor", "motorway", "highway"]

/-- The `for drop_col in [...]: df.drop(columns=[drop_col])` loop
(lines 33–35). -/
def dropLabelColumns (df : DataFrame) : DataFrame :=
  { columns := df.columns.filter
      (fun c => c ∉ (["behavior_label", "label", "target", "class"] : List String)),
    rows := df.rows }

/-- `for col in feature_cols: if col not in df.columns: df[col] = 0.0`
(lines 40–42). -/
def ensure_feature_columns (df : DataFrame) (cols : List String) : DataFrame :=
  { columns := df.columns ++ cols.filter (fun c => c ∉ df.columns),
    rows := df.rows.map (fun r => fun c => if c ∈ df.columns then r c else 0) }

/-- `df = df[feature_cols]` (line 44). -/
def select_columns (df : DataFrame) (cols : List String) : DataFrame :=
  { columns := cols, rows := df.rows }

/-- The frame `predict_from_dataframe` hands to `make_windows`: label columns
dropped, schema columns synthesized, strict feature order enforced. -/
def predict_prepared (art : BackendArtifacts) (df : DataFrame) : DataFrame :=
  select_columns (ensure_feature_columns (dropLabelColumns df)
    art.feature_order) art.feature_order

/-- The window array `X` of `predict_from_dataframe` (lines 49–54). -/
def predict_X (art : BackendArtifacts) (df : DataFrame) (road_type : String) :
    List (List (List ℚ)) :=
  (make_windows (predict_prepared art df) art.feature_order
    art.window_length road_type).1

/-- The scaled window array (lines 64–68): flatten to `(n*t, f)`, transform
with the training-time scaler, reshape back. -/
def predict_scaled (art : BackendArtifacts) (df : DataFrame)
    (road_type : String) : List (List (List ℚ)) :=
  let scaler := if predict_use_motor road_type then art.motor_scaler
    else art.secondary_scaler
  chunkList art.window_length (scaler (predict_X art df road_type).join)

/-- `probs = model.predict(X_scaled)` (line 73) with the road-type-selected
model. -/
def predict_probs (art : BackendArtifacts) (df : DataFrame)
    (road_type : String) : List (List ℚ) :=
  (if predict_use_motor road_type then art.motor_model
    else art.secondary_model) (predict_scaled art df road_type)

/-- One `ai_feedback` entry. -/
structure Feedback where
  priority : String
  title : String
  message : String
deriving DecidableEq

/-- The response dict of `predict_from_dataframe` (lines 143–155). -/
structure PredictResponse where
  method : String
  road_type : String
  windows_used : ℕ
  label : String
  confidence : ℚ
  overall : ℤ
  badge : String
  probs : List (String × ℚ)
  ai_feedback : List Feedback
deriving DecidableEq

/-- `predict_from_dataframe(df, road_type)` (`predictor.py` lines 14–155):
window, bail out with `ValueError` when no window fits, scale, predict,
average probabilities across windows, decode label/confidence, and map to
the overall score, badge and feedback. -/
def predict_from_dataframe (art : BackendArtifacts) (df : DataFrame)
    (road_type : String) : Except String PredictResponse :=
  let X := predict_X art df road_type
  if X.isEmpty then
    .error ("Not enough rows for ML window. Need at least " ++
      toString art.window_length ++ " rows.")
  else
    let probs := predict_probs art df road_type
    let mean_probs := npMeanAxis0 probs
    let pred_idx := npArgmax mean_probs
    let confidence := mean_probs.getD pred_idx 0
    let label := LABELS.getD pred_idx ""
    let overall0 :=
      if label = "Normal" then pyInt (80 + confidence * 20)
      else if label = "Aggressive" then pyInt (35 + (1 - confidence) * 15)
      else pyInt (20 + (1 - confidence) * 20)
    let overall := max 0 (min 100 overall0)
    let badge := if 85 ≤ overall then "Excellent"
      else if 70 ≤ overall then "Improving"
      else "Needs Focus"
    let feedback :=
      if label = "Aggressive" then
        [⟨"high", "Harsh driving detected",
          "Model detected aggressive patterns (" ++
            toString (roundHalfEven (confidence * 100)) ++
            "% confidence). Focus on smoother acceleration and braking."⟩]
      else if label = "Drowsy" then
        [⟨"high", "Possible fatigue risk",
          "Model detected drowsiness patterns (" ++
            toString (roundHalfEven (confidence * 100)) ++
            "% confidence). Consider taking a break."⟩]
      else
        [⟨"medium", "Good control",
          "Model detected normal driving (" ++
            toString (roundHalfEven (confidence * 100)) ++
            "% confidence). Maintain consistency."⟩]
    .ok { method := "ml_v1",
          road_type := if predict_use_motor road_type then "motor"
            else "secondary",
          windows_used := X.length,
          label := label, confidence := confidence, overall := overall,
          badge := badge,
          probs := (List.range 3).map (fun i =>
            (LABELS.getD i "", mean_probs.getD i 0)),
          ai_feedback := feedback }

/-! ## argmax lemmas -/

theorem findIdx_lt_length_of_mem {α : Type} {p : α → Bool} {l : List α}
    {x : α} (hx : x ∈ l) (hp : p x = true) : l.findIdx p < l.length := by
  induction l with
  | nil => cases hx
  | cons a as ih =>
    rw [List.findIdx_cons]
    by_cases ha : p a = true
    · simp [ha]
    · have hbf : p a = false := by
        cases hpa : p a
        · rfl
        · exact absurd hpa ha
      rcases List.mem_cons.mp hx with rfl | hxs
      · exact absurd hp ha
      · simp only [hbf, cond_false, List.length_cons]
        exact Nat.succ_lt_succ (ih hxs)

theorem findIdx_getD_of_mem {α : Type} {p : α → Bool} {l : List α}
    {x : α} (hx : x ∈ l) (hp : p x = true) (d : α) :
    p (l.getD (l.findIdx p) d) = true := by
  induction l with
  | nil => cases hx
  | cons a as ih =>
    rw [List.findIdx_cons]
    by_cases ha : p a = true
    · simp only [ha, cond_true, List.getD_cons_zero]
    · have hbf : p a = false := by
        cases hpa : p a
        · rfl
        · exact absurd hpa ha
      rcases List.mem_cons.mp hx with rfl | hxs
      · exact absurd hp ha
      · simp only [hbf, cond_false, List.getD_cons_succ]
        exact ih hxs

theorem npArgmax_lt_length {l : List ℚ} (h : l ≠ []) :
    npArgmax l < l.length := by
  unfold npArgmax
  obtain ⟨hmem, _⟩ := maximum_getD_spec h
  exact findIdx_lt_length_of_mem hmem (decide_eq_true rfl)

theorem npArgmax_getD {l : List ℚ} (h : l ≠ []) :
    l.getD (npArgmax l) 0 = l.maximum.getD 0 := by
  unfold npArgmax
  obtain ⟨hmem, _⟩ := maximum_getD_spec h
  have hfi := @findIdx_getD_of_mem ℚ (fun x => decide (x = l.maximum.getD 0))
    l (l.maximum.getD 0) hmem (decide_eq_true rfl) 0
  exact of_decide_eq_true hfi

theorem getD_mem_of_lt {α : Type} {l : List α} {i : ℕ} (hi : i < l.length)
    (d : α) : l.getD i d ∈ l := by
  have hg : l.getD i d = l[i] := by
    rw [List.getD_eq_getElem?_getD, List.getElem?_eq_getElem hi]
    rfl
  rw [hg]
  exact List.getElem_mem hi

/-! ## C9: the two label decoders -/

/-- C9, counterexample.  The claim says `LABELS[i]` equals the label
`map_classes_to_labels` assigns to index `i` for every `i < 3`; it fails at
`i = 1` (and `i = 2`): the backend decodes class 1 as "Drowsy", the ml-model
path as "Normal". -/
theorem C9_label_decoding_counterexample :
    ¬ ∀ i, i < 3 → label_map i = some (LABELS.getD i "") := by
  decide

/-- C9, amended.  The two independently implemented decoders agree only at
index 0 ("Aggressive"); indices 1 and 2 are swapped between them — `LABELS`
reads `[Aggressive, Drowsy, Normal]` while `label_map` reads
`{0: Aggressive, 1: Normal, 2: Drowsy}` — so the two inference paths report
different behavior labels for class indices 1 and 2. -/
theorem C9_label_decoding_amended :
    LABELS.getD 0 "" = "Aggressive" ∧ label_map 0 = some "Aggressive" ∧
    LABELS.getD 1 "" = "Drowsy" ∧ label_map 1 = some "Normal" ∧
    LABELS.getD 2 "" = "Normal" ∧ label_map 2 = some "Drowsy" ∧
    label_map 1 = some (LABELS.getD 2 "") ∧
    label_map 2 = some (LABELS.getD 1 "") ∧
    map_classes_to_labels [0, 1, 2] =
      .ok ["Aggressive", "Normal", "Drowsy"] := by
  refine ⟨by decide, by decide, by decide, by decide, by decide, by decide,
    by decide, by decide, ?_⟩
  rfl

/-! ## C4: unknown road types -/

/-- Concrete backend artifacts: window length 1, one feature, a model that
answers `[1, 0, 0]` for every window. -/
def c4Art : BackendArtifacts :=
  ⟨["a"], 1, fun ws => ws.map (fun _ => [1, 0, 0]),
   fun ws => ws.map (fun _ => [1, 0, 0]), fun x => x, fun x => x⟩

/-- A one-row input frame. -/
def c4Df : DataFrame := ⟨["a"], [fun _ => 1]⟩

/-- The response `predict_from_dataframe` produces for the unknown road type
"urban": it silently used the secondary bundle. -/
def c4Resp : PredictResponse :=
  { method := "ml_v1", road_type := "secondary", windows_used := 1,
    label := "Aggressive", confidence := 1, overall := 35,
    badge := "Needs Focus",
    probs := [("Aggressive", 1), ("Drowsy", 0), ("Normal", 0)],
    ai_feedback := [⟨"high", "Harsh driving detected",
      "Model detected aggressive patterns (" ++ toString (100 : ℤ) ++
        "% confidence). Focus on smoother acceleration and braking."⟩] }

theorem c4_X : predict_X c4Art c4Df "urban" = [[[1]]] := by decide

theorem c4_probs : predict_probs c4Art c4Df "urban" = [[1, 0, 0]] := by decide

theorem roundHalfEven_intCast (n : ℤ) : roundHalfEven (n : ℚ) = n := by
  rw [rhe_of_lt_half (by rw [Int.floor_intCast]; norm_num)]
  exact Int.floor_intCast n

theorem c4_predict_run :
    predict_from_dataframe c4Art c4Df "urban" = .ok c4Resp := by
  have hAN : ("Aggressive" = "Normal") = False := eq_false (by decide)
  have hAA : ("Aggressive" = "Aggressive") = True := eq_true rfl
  have hum : predict_use_motor "urban" = false := by decide
  have hrhe : roundHalfEven ((100 : ℚ)) = 100 := by
    have h := roundHalfEven_intCast 100
    push_cast at h
    exact h
  simp only [predict_from_dataframe, c4_X, c4_probs, hum]
  norm_num [npMeanAxis0, npArgmax, List.findIdx_cons, List.maximum_cons,
    List.maximum_singleton, ← WithBot.coe_max, sup_eq_max, max_def,
    Option.getD, List.range_succ, LABELS, hAN, hAA, hrhe, c4Resp,
    pyInt_eq_floor, Bool.cond_decide]

/-- C4, counterexample.  The claim says every classification call with an
unrecognized road type fails with a hard validation error; but the backend's
`predict_from_dataframe` accepts road type "urban" and silently falls back to
the secondary model bundle (its response says road_type "secondary"), while
only the ml-model path's dispatch raises. -/
theorem C4_road_validation_counterexample :
    predict_from_dataframe c4Art c4Df "urban" = .ok c4Resp ∧
    c4Resp.road_type = "secondary" ∧
    run_classification_dispatch "urban" =
      .error (.valueError "Unknown road type") := by
  refine ⟨c4_predict_run, rfl, ?_⟩
  unfold run_classification_dispatch
  rw [if_neg (by decide), if_neg (by decide)]

/-- C4, amended.  For a road type outside both recognized families, the
ml-model path fails hard — `run_classification` raises
`ValueError("Unknown road type")` before any model invocation (the error is
the same for every artifact bundle, so no model output can influence it) and
`load_knn_components` raises likewise — but the backend's
`predict_from_dataframe` never validates: it silently falls back to the
secondary model, scaler and stride. -/
theorem C4_road_validation_amended (rt : String) (st : KnnStore)
    (h1 : rt ≠ "Motorway") (h2 : rt ≠ "Secondary")
    (h3 : pyStripLower rt ∉ (["motorway", "motor", "secondary"] : List String))
    (h4 : pyStripLower rt ∉ (["motor", "motorway", "highway"] : List String)) :
    run_classification_dispatch rt = .error (.valueError "Unknown road type") ∧
    (∀ (K : PreprocKernels) (A : MlArtifacts) (s : SensorJson),
      s.road_type = rt →
      run_classification K A s = .error (.valueError "Unknown road type")) ∧
    load_knn_components st rt =
      .error (.valueError ("Unknown road type: " ++ rt)) ∧
    predict_use_motor rt = false ∧
    strideFor rt = 260 := by
  have hdisp : run_classification_dispatch rt =
      .error (.valueError "Unknown road type") := by
    unfold run_classification_dispatch
    rw [if_neg h1, if_neg h2]
  simp only [List.mem_cons, List.mem_singleton, not_or] at h3 h4
  refine ⟨hdisp, ?_, ?_, ?_, ?_⟩
  · intro K A s hs
    unfold run_classification
    rw [hs, hdisp]
  · unfold load_knn_components
    rw [if_neg (by tauto), if_neg (by tauto)]
  · unfold predict_use_motor
    simp [h4.1, h4.2.1, h4.2.2]
  · unfold strideFor
    rw [if_neg (by simp [h4.1, h4.2.1, h4.2.2])]

/-- C4, witness: the amended theorem applied at road type "urban". -/
theorem C4_road_validation_amended_witness :
    run_classification_dispatch "urban" =
      .error (.valueError "Unknown road type") ∧
    strideFor "urban" = 260 := by
  have h := C4_road_validation_amended "urban" w10Store (by decide) (by decide)
    (by decide) (by decide)
  exact ⟨h.1, h.2.2.2.2⟩

/-! ## C7: session-level probability aggregation -/

theorem headI_mem_of_ne_nil {α : Type} [Inhabited α] {l : List α}
    (h : l ≠ []) : l.headI ∈ l := by
  cases l with
  | nil => exact absurd rfl h
  | cons a as => exact List.mem_cons_self a as

theorem npMeanAxis0_length (m : List (List ℚ)) :
    (npMeanAxis0 m).length = m.headI.length := by
  simp [npMeanAxis0]

theorem npMeanAxis0_getD {m : List (List ℚ)} (hne : m ≠ [])
    (h3 : ∀ p ∈ m, p.length = 3) {j : ℕ} (hj : j < 3) :
    (npMeanAxis0 m).getD j 0 =
      (m.map (fun r => r.getD j 0)).sum / m.length := by
  unfold npMeanAxis0
  have hh : m.headI.length = 3 := h3 _ (headI_mem_of_ne_nil hne)
  rw [hh]
  rw [getD_map_lt _ _ j (by simpa using hj) 0 0]
  have hr : (List.range 3).getD j 0 = j := by
    rw [List.getD_eq_getElem?_getD, List.getElem?_range hj]
    rfl
  rw [hr]

theorem col_sum_swap (m : List (List ℚ)) (h3 : ∀ p ∈ m, p.length = 3) :
    ((List.range 3).map (fun j => (m.map (fun r => r.getD j 0)).sum)).sum
      = (m.map (fun p => p.sum)).sum := by
  induction m with
  | nil => simp
  | cons p ps ih =>
    have hp : p.length = 3 := h3 p (List.mem_cons_self p ps)
    have hps : ∀ q ∈ ps, q.length = 3 :=
      fun q hq => h3 q (List.mem_cons_of_mem p hq)
    have ihh := ih hps
    obtain ⟨a, b, c, rfl⟩ : ∃ a b c, p = [a, b, c] := by
      match p, hp with
      | [a, b, c], _ => exact ⟨a, b, c, rfl⟩
    have hrange : (List.range 3) = [0, 1, 2] := rfl
    rw [hrange] at ihh ⊢
    have g0 : ([a, b, c] : List ℚ).getD 0 0 = a := rfl
    have g1 : ([a, b, c] : List ℚ).getD 1 0 = b := rfl
    have g2 : ([a, b, c] : List ℚ).getD 2 0 = c := rfl
    simp only [List.map_cons, List.map_nil, List.sum_cons, List.sum_nil]
      at ihh ⊢
    rw [g0, g1, g2]
    linarith

theorem sum_map_one (m : List (List ℚ)) :
    (m.map (fun _ => (1 : ℚ))).sum = (m.length : ℚ) := by
  induction m with
  | nil => simp
  | cons p ps ih =>
    simp only [List.map_cons, List.sum_cons, List.length_cons, ih]
    push_cast
    ring

theorem npMeanAxis0_sum {m : List (List ℚ)} (hne : m ≠ [])
    (h3 : ∀ p ∈ m, p.length = 3) (h1 : ∀ p ∈ m, p.sum = 1) :
    (npMeanAxis0 m).sum = 1 := by
  unfold npMeanAxis0
  have hh : m.headI.length = 3 := h3 _ (headI_mem_of_ne_nil hne)
  rw [hh]
  have hdiv : ((List.range 3).map
      (fun j => (m.map (fun r => r.getD j 0)).sum / m.length)).sum
      = ((List.range 3).map (fun j => (m.map (fun r => r.getD j 0)).sum)).sum
        / m.length := by
    have hrange : (List.range 3) = [0, 1, 2] := rfl
    rw [hrange]
    simp only [List.map_cons, List.map_nil, List.sum_cons, List.sum_nil]
    ring
  rw [hdiv, col_sum_swap m h3]
  have hconst : m.map (fun p => p.sum) = m.map (fun _ => (1 : ℚ)) :=
    List.map_congr_left (fun p hp => h1 p hp)
  rw [hconst, sum_map_one]
  have hlen0 : (m.length : ℚ) ≠ 0 := by
    have hp : 0 < m.length := List.length_pos.mpr hne
    exact_mod_cast Nat.pos_iff_ne_zero.mp hp
  exact div_self hlen0

theorem getD_range_eq_self (l : List ℚ) :
    (List.range l.length).map (fun i => l.getD i 0) = l := by
  apply List.ext_getElem
  · simp
  · intro i h1 h2
    simp only [List.getElem_map, List.getElem_range]
    rw [List.getD_eq_getElem?_getD, List.getElem?_eq_getElem h2]
    rfl

/-- C7.  When `predict_from_dataframe` returns a response and the model
produced one width-3 probability vector per window, the response's
session-level probability vector is exactly the row-wise mean of the
per-window vectors; the label is `LABELS` at the argmax of that mean
vector, the confidence is the mean vector's entry at that argmax (hence an
upper bound of all its entries); and when every per-window vector sums to 1
the session vector sums to 1 as well (exactly — floats are modelled by ℚ). -/
theorem C7_session_probability (art : BackendArtifacts) (df : DataFrame)
    (rt : String) (r : PredictResponse)
    (h : predict_from_dataframe art df rt = .ok r)
    (hlen : (predict_probs art df rt).length = (predict_X art df rt).length)
    (h3 : ∀ p ∈ predict_probs art df rt, p.length = 3) :
    (∀ j < 3, (npMeanAxis0 (predict_probs art df rt)).getD j 0 =
      ((predict_probs art df rt).map (fun p => p.getD j 0)).sum /
        (predict_probs art df rt).length) ∧
    r.probs = (List.range 3).map (fun i =>
      (LABELS.getD i "", (npMeanAxis0 (predict_probs art df rt)).getD i 0)) ∧
    r.label = LABELS.getD (npArgmax (npMeanAxis0 (predict_probs art df rt))) "" ∧
    r.confidence = (npMeanAxis0 (predict_probs art df rt)).getD
      (npArgmax (npMeanAxis0 (predict_probs art df rt))) 0 ∧
    (∀ j < 3,
      (npMeanAxis0 (predict_probs art df rt)).getD j 0 ≤ r.confidence) ∧
    ((∀ p ∈ predict_probs art df rt, p.sum = 1) →
      (r.probs.map (fun p => p.2)).sum = 1 ∧
      (npMeanAxis0 (predict_probs art df rt)).sum = 1) := by
  have hXne : ¬ (predict_X art df rt).isEmpty = true := by
    simp only [predict_from_dataframe] at h
    intro hcon
    rw [if_pos hcon] at h
    exact absurd h (by simp)
  have hpne : predict_probs art df rt ≠ [] := by
    intro hcon
    have hXnil : (predict_X art df rt).length = 0 := by
      rw [← hlen, hcon]
      rfl
    exact hXne (by simpa [List.isEmpty_iff, List.length_eq_zero] using hXnil)
  simp only [predict_from_dataframe] at h
  rw [if_neg hXne] at h
  simp only [Except.ok.injEq] at h
  have hmp3 : (npMeanAxis0 (predict_probs art df rt)).length = 3 := by
    rw [npMeanAxis0_length]
    exact h3 _ (headI_mem_of_ne_nil hpne)
  have hmpne : npMeanAxis0 (predict_probs art df rt) ≠ [] := by
    intro hcon
    rw [hcon] at hmp3
    exact absurd hmp3 (by simp)
  subst h
  refine ⟨fun j hj => npMeanAxis0_getD hpne h3 hj, rfl, rfl, rfl, ?_, ?_⟩
  · intro j hj
    show (npMeanAxis0 (predict_probs art df rt)).getD j 0 ≤
      (npMeanAxis0 (predict_probs art df rt)).getD
        (npArgmax (npMeanAxis0 (predict_probs art df rt))) 0
    rw [npArgmax_getD hmpne]
    exact (maximum_getD_spec hmpne).2 _ (getD_mem_of_lt (by omega) 0)
  · intro hsums
    have hsum1 : (npMeanAxis0 (predict_probs art df rt)).sum = 1 :=
      npMeanAxis0_sum hpne h3 hsums
    refine ⟨?_, hsum1⟩
    show (((List.range 3).map (fun i =>
      (LABELS.getD i "", (npMeanAxis0 (predict_probs art df rt)).getD i 0))).map
        (fun p => p.2)).sum = 1
    rw [List.map_map]
    have hcomp : ((fun p => p.2) ∘ (fun i =>
        ((LABELS.getD i "", (npMeanAxis0 (predict_probs art df rt)).getD i 0)
          : String × ℚ)))
        = fun i => (npMeanAxis0 (predict_probs art df rt)).getD i 0 := rfl
    rw [hcomp, ← hmp3, getD_range_eq_self]
    exact hsum1

/-- C7, witness: on the concrete one-window session (model output
`[[1, 0, 0]]`) the theorem gives a response whose probability entries sum
to 1. -/
theorem C7_session_probability_witness :
    (c4Resp.probs.map (fun p => p.2)).sum = 1 := by
  have h := C7_session_probability c4Art c4Df "urban" c4Resp c4_predict_run
    (by simp [c4_X, c4_probs]) (by rw [c4_probs]; intro p hp; simp at hp; simp [hp])
  exact (h.2.2.2.2.2 (by rw [c4_probs]; intro p hp; simp at hp; rw [hp]; norm_num)).1

/-! ## C5: the insufficient-data path -/

/-- Trivial library kernels: every as-of join yields no value columns, the
imputer and the schema reorder are the identity. -/
def c5K : PreprocKernels := ⟨fun _ _ => [], fun _ _ => [], fun m => m, fun m => m⟩

/-- Trivial ml-model artifacts. -/
def c5A : MlArtifacts := ⟨fun _ => [], fun _ => [], fun x => x, fun x => x⟩

/-- A one-reading session (a single GPS sample at t = 0) on a valid road
type: far fewer than the 2400 rows a window needs. -/
def c5Sensor : SensorJson := ⟨"sess", "Motorway", [[0]], [], [], [], []⟩

theorem c5_df_len : (preprocess_session_from_json c5K c5Sensor).length = 1 := by
  have hmax : seriesMax (tsCol c5Sensor.gps) = 0 := by
    norm_num [c5Sensor, tsCol, seriesMax, List.maximum_singleton, Option.getD]
  have h010 : seriesMax (tsCol c5Sensor.gps) * 10 = 0 := by rw [hmax]; norm_num
  have hint : pyInt (seriesMax (tsCol c5Sensor.gps) * 10) = 0 := by
    rw [h010, pyInt_eq_floor le_rfl]
    norm_num
  simp only [preprocess_session_from_json, c5K, session_timebase,
    build_10hz_timebase, hint, mergeStreams, List.length_map, List.length_range]
  norm_num [pyRange, pyRangeLen]

theorem c5_windows_nil :
    create_windows_inference (preprocess_session_from_json c5K c5Sensor)
      2400 240 = [] := by
  rw [create_windows_inference_eq_map, c5_df_len,
    pyRangeLen_of_nonpos (by norm_num) 240]
  rfl

/-- C5 (code bug).  On a session with fewer than 2400 preprocessed rows,
`run_classification` does return the explicit insufficient-data dict
`{"session_id", "error"}` — but that dict has no `"road_type"` key, so
`run_full_knn_pipeline`, which immediately subscripts
`classification_result["road_type"]`, crashes with `KeyError("road_type")`
before its own `"Not enough data for windowing"` guard can ever fire; the
backend's `predict_from_dataframe` likewise raises `ValueError` instead of
returning an insufficient-data result. -/
theorem C5_insufficient_data_bug :
    run_classification c5K c5A c5Sensor =
      .ok [("session_id", .str "sess"),
           ("error", .str "Not enough data for windowing")] ∧
    run_full_knn_pipeline c5K c5A w10Store c5Sensor =
      .error (.keyError "road_type") ∧
    predict_from_dataframe c4Art ⟨["a"], []⟩ "Secondary" =
      .error "Not enough rows for ML window. Need at least 1 rows." := by
  have hd : run_classification_dispatch c5Sensor.road_type =
      .ok (240, MlChoice.motor) := rfl
  have h1 : run_classification c5K c5A c5Sensor =
      .ok [("session_id", .str "sess"),
           ("error", .str "Not enough data for windowing")] := by
    unfold run_classification
    rw [hd]
    show (if (create_windows_inference (preprocess_session_from_json c5K
        c5Sensor) 2400 240).isEmpty = true then
      Except.ok [("session_id", PyVal.str c5Sensor.session_id),
        ("error", PyVal.str "Not enough data for windowing")] else _) = _
    rw [c5_windows_nil]
    rfl
  refine ⟨h1, ?_, ?_⟩
  · unfold run_full_knn_pipeline
    rw [h1]
    rfl
  · unfold predict_from_dataframe
    rw [if_pos (by decide)]
    rfl

/-! ## C6: road type changes only the stride -/

/-- C6.  Two pipeline runs on identical sensor input that differ only in the
road type ("Motorway" versus "Secondary") produce the identical completed
feature matrix — preprocessing never receives the road type, whatever the
library kernels do — and differ only in the stride the dispatch selects
(240 versus 260), hence possibly in window count and window start offsets:
each run's windows are stride-offset slices of that same shared matrix.
The backend's `make_windows` behaves the same way with its lowercased
road-type families. -/
theorem C6_road_type_independence (K : PreprocKernels) (s : SensorJson)
    (dfr : DataFrame) (cols : List String) (wl : ℕ) :
    preprocess_session_from_json K { s with road_type := "Motorway" } =
      preprocess_session_from_json K { s with road_type := "Secondary" } ∧
    run_classification_dispatch "Motorway" = .ok (240, .motor) ∧
    run_classification_dispatch "Secondary" = .ok (260, .secondary) ∧
    (∀ df : List (List ℚ),
      create_windows_inference df 2400 240 =
        (List.range (pyRangeLen ((df.length : ℤ) - 2400 + 1) 240)).map
          (fun i => (df.drop (i * 240)).take 2400) ∧
      create_windows_inference df 2400 260 =
        (List.range (pyRangeLen ((df.length : ℤ) - 2400 + 1) 260)).map
          (fun i => (df.drop (i * 260)).take 2400)) ∧
    strideFor "motorway" = 240 ∧ strideFor "secondary" = 260 ∧
    (make_windows dfr cols wl "motorway").1 =
      create_windows_inference (dfSelect dfr cols) wl 240 ∧
    (make_windows dfr cols wl "secondary").1 =
      create_windows_inference (dfSelect dfr cols) wl 260 := by
  have hsm : strideFor "motorway" = 240 := by decide
  have hss : strideFor "secondary" = 260 := by decide
  refine ⟨rfl, rfl, rfl, ?_, hsm, hss, ?_, ?_⟩
  · intro df
    exact ⟨create_windows_inference_eq_map df 2400 240,
      create_windows_inference_eq_map df 2400 260⟩
  · rw [make_windows_eq, hsm]
  · rw [make_windows_eq, hss]

end DriveIQ
